import Mathlib

/-!
Verification of the mock-bank Telegram bot (`src/main.py`).

Shallow embedding of the bot's handlers. The chat transport
(`python-telegram-bot`) and the Mongo store are external collaborators; we
model the persisted record of one user (all state is keyed per user and
users are independent) and the per-user transient session (`context.user_data`).

Conventions of the embedding:
* Python `int` is `Int` (unbounded).
* A Mongo record `{user_id, balance, last_transaction}` is `UserRec`;
  `last_transaction : Option String` where `none` models the Python value
  `None` stored under a *present* key (both `insert_one` and every
  `update_one` in the source write the key explicitly).
* The store for the one modelled user is `Option UserRec`; `none` means no
  document, so `users.find_one` returns Python `None`.
* `context.user_data` is `Session`: `action` models `user_data.get('action')`
  (absent and `None` coincide), `amount` models `user_data.get('amount')`,
  `confirming` models the truthiness of `user_data.get('confirming')`.
* A handler that can raise a Python exception returns
  `Except String (BotState × List String)`; the `.err` constructor carries
  the exception class name, and is produced exactly at the program point
  where the source raises, before any store mutation that follows it.
  The `List String` collects the texts sent back to the user.
-/

namespace MockBank

/-- The pending action stored in `context.user_data['action']`:
`'deposit'` or `'withdraw'`. -/
inductive Action where
  | deposit
  | withdraw
deriving DecidableEq, Repr

/-- Persisted user document: `balance` and `last_transaction`
(`none` = Python `None`, as inserted by `start`). -/
structure UserRec where
  balance : Int
  last_transaction : Option String
deriving DecidableEq, Repr

/-- Transient per-user session state held in `context.user_data`. -/
structure Session where
  action : Option Action
  amount : Option Int
  confirming : Bool
deriving DecidableEq, Repr

/-- The whole modelled state for one user: the persisted document (if any)
and the transient session. -/
structure BotState where
  db : Option UserRec
  sess : Session
deriving DecidableEq, Repr

/-- State of a user who has never interacted: no document, empty session. -/
def initState : BotState := ⟨none, ⟨none, none, false⟩⟩

/-- Python `text.strip()` on the message text: whitespace removed at both
ends. (All structurally recursive so that concrete inputs evaluate inside
the kernel.) -/
def pyStrip (s : String) : String :=
  String.mk (((s.data.dropWhile Char.isWhitespace).reverse.dropWhile
    Char.isWhitespace).reverse)

/-- Python `s.lower()`. All strings the source compares after lowering are
ASCII, for which `Char.toLower` agrees with CPython. -/
def pyLower (s : String) : String :=
  String.mk (s.data.map Char.toLower)

/-- A non-empty all-digit run, as accepted by `int()`. -/
def listToNat? (cs : List Char) : Option Nat :=
  if cs ≠ [] ∧ cs.all Char.isDigit then
    some (cs.foldl (fun a c => a * 10 + (c.toNat - 48)) 0)
  else none

/-- Python `int(s)` on the already-stripped text: an optional single sign
followed by one or more decimal digits, otherwise `ValueError` (`none`).
(CPython additionally permits `_` separators between digits; nothing the
claims depend on touches that corner and it is not modelled.) -/
def pyIntList : List Char → Option Int
  | [] => none
  | '-' :: rest => (listToNat? rest).map (fun n => -(n : Int))
  | '+' :: rest => (listToNat? rest).map (fun n => (n : Int))
  | cs => (listToNat? cs).map (fun n => (n : Int))

/-- Python `int(s)` (see `pyIntList`). -/
def pyInt (s : String) : Option Int := pyIntList s.data

/-- Worker for `pySplitOn`: fuelled (structural) scan; `fuel` starts at the
length of the text, and one unit is spent per step while at least one
character is consumed, so the fuel never runs out. -/
def splitOnAux (sep : List Char) : Nat → List Char → List Char → List (List Char)
  | _, [], acc => [acc.reverse]
  | 0, cs, acc => [acc.reverse ++ cs]
  | fuel + 1, c :: rest, acc =>
    if sep.isPrefixOf (c :: rest) then
      acc.reverse :: splitOnAux sep fuel ((c :: rest).drop sep.length) []
    else
      splitOnAux sep fuel rest (c :: acc)

/-- Python `s.split(sep)` for a non-empty separator: greedy left-to-right,
non-overlapping; always returns at least one piece. -/
def pySplitOn (s sep : String) : List String :=
  (splitOnAux sep.data s.data.length s.data []).map String.mk

/-! ## Model of the CPython datetime pieces used by the source

`button` calls `datetime.strptime(s, '%Y-%m-%d %H:%M:%S.%f')`;
`handle_confirmation` embeds `f"... on {datetime.now()}"`, i.e. `str()` of a
datetime. Both are CPython standard-library behaviour, modelled here. -/

/-- A parsed datetime value (microsecond resolution). -/
structure PyDatetime where
  year : Nat
  month : Nat
  day : Nat
  hour : Nat
  minute : Nat
  second : Nat
  microsecond : Nat
deriving DecidableEq, Repr

/-- Digits to a number, most significant first. -/
def digitsToNat (ds : List Char) : Nat :=
  ds.foldl (fun a c => a * 10 + (c.toNat - 48)) 0

/-- `%Y` in CPython `_strptime`: exactly four decimal digits. -/
def parseYear : List Char → Option (Nat × List Char)
  | a :: b :: c :: d :: rest =>
    if a.isDigit ∧ b.isDigit ∧ c.isDigit ∧ d.isDigit then
      some (digitsToNat [a, b, c, d], rest)
    else none
  | _ => none

/-- A numeric field of one or two digits whose value lies in `[lo, hi]`.
CPython's `%m/%d/%H/%M/%S` regexes (e.g. `1[0-2]|0[1-9]|[1-9]` for `%m`)
accept exactly the same strings: a maximal run of more than two digits, or a
two-digit value out of range, makes the following literal separator fail. -/
def parseField (lo hi : Nat) (cs : List Char) : Option (Nat × List Char) :=
  let p := cs.span Char.isDigit
  if 1 ≤ p.1.length ∧ p.1.length ≤ 2 ∧ lo ≤ digitsToNat p.1 ∧ digitsToNat p.1 ≤ hi then
    some (digitsToNat p.1, p.2)
  else none

/-- A literal character of the format string. -/
def expect (c : Char) : List Char → Option (List Char)
  | x :: rest => if x = c then some rest else none
  | [] => none

/-- The blank in the format string: CPython compiles it to `\s+`. -/
def expectWs (cs : List Char) : Option (List Char) :=
  let p := cs.span Char.isWhitespace
  if 1 ≤ p.1.length then some p.2 else none

/-- `datetime.strptime(s, '%Y-%m-%d %H:%M:%S.%f')`: the fractional-second
field `%f` (one to six digits after a literal `'.'`) is mandatory, and the
whole string must be consumed; on any mismatch CPython raises `ValueError`
(`none` here). -/
def parseDatetime (s : String) : Option PyDatetime :=
  match parseYear s.toList with
  | none => none
  | some (y, r1) =>
  match expect '-' r1 with
  | none => none
  | some r2 =>
  match parseField 1 12 r2 with
  | none => none
  | some (mo, r3) =>
  match expect '-' r3 with
  | none => none
  | some r4 =>
  match parseField 1 31 r4 with
  | none => none
  | some (d, r5) =>
  match expectWs r5 with
  | none => none
  | some r6 =>
  match parseField 0 23 r6 with
  | none => none
  | some (h, r7) =>
  match expect ':' r7 with
  | none => none
  | some r8 =>
  match parseField 0 59 r8 with
  | none => none
  | some (mi, r9) =>
  match expect ':' r9 with
  | none => none
  | some r10 =>
  match parseField 0 59 r10 with
  | none => none
  | some (sec, r11) =>
  match expect '.' r11 with
  | none => none
  | some r12 =>
    let p := r12.span Char.isDigit
    if 1 ≤ p.1.length ∧ p.1.length ≤ 6 ∧ p.2 = [] then
      some ⟨y, mo, d, h, mi, sec, digitsToNat p.1 * 10 ^ (6 - p.1.length)⟩
    else none

/-- Zero-pad a number to `w` digits. -/
def padN (w n : Nat) : String :=
  let d := toString n
  String.mk (List.replicate (w - d.length) '0') ++ d

/-- `dt.strftime('%d/%m/%Y %H:%M:%S')`, the display reformatting in
`button`'s balance inquiry. -/
def formatDisplay (dt : PyDatetime) : String :=
  padN 2 dt.day ++ "/" ++ padN 2 dt.month ++ "/" ++ padN 4 dt.year ++ " " ++
    padN 2 dt.hour ++ ":" ++ padN 2 dt.minute ++ ":" ++ padN 2 dt.second

/-- `str(datetime(...))` as interpolated by `f"... on {datetime.now()}"`:
`YYYY-MM-DD HH:MM:SS[.ffffff]`, where the fractional part is *omitted
entirely* when `microsecond = 0`. -/
def pyDatetimeStr (dt : PyDatetime) : String :=
  padN 4 dt.year ++ "-" ++ padN 2 dt.month ++ "-" ++ padN 2 dt.day ++ " " ++
    padN 2 dt.hour ++ ":" ++ padN 2 dt.minute ++ ":" ++ padN 2 dt.second ++
    (if dt.microsecond = 0 then "" else "." ++ padN 6 dt.microsecond)

/-! ## The handlers of `src/main.py` -/

/-- The `/start` command handler: inserts `{balance: 0, last_transaction: None}`
if the user has no document yet, then sends the welcome menu. -/
def start (st : BotState) : BotState × List String :=
  let db' := match st.db with
    | none => some ⟨0, none⟩
    | some u => some u
  (⟨db', st.sess⟩, ["Welcome to the Mock Bank Bot! Choose an option:"])

/-- The inline-keyboard callback handler `button`. `data` is
`query.data`. `users.find_one` returns `None` (`none`) when the user has no
document; `user.get('last_transaction', 'No transactions yet')` returns the
*stored* value — possibly Python `None` — because the key is always present,
so the `'No transactions yet'` default is never produced, and
`None.split(' on ')` raises `AttributeError`. `strptime` failure raises
`ValueError`. -/
def button (st : BotState) (data : String) : Except String (BotState × List String) :=
  if data = "check_balance" then
    match st.db with
    | none => .error "AttributeError"
    | some u =>
      match u.last_transaction with
      | none => .error "AttributeError"
      | some last_transaction =>
        if last_transaction ≠ "No transactions yet" then
          let transaction_details := pySplitOn last_transaction " on "
          let transaction_time_str := transaction_details.getLastD ""
          match parseDatetime transaction_time_str with
          | none => .error "ValueError"
          | some transaction_time =>
            let formatted_time := formatDisplay transaction_time
            let formatted_last_transaction :=
              transaction_details.headD "" ++ " on " ++ formatted_time
            .ok (st, ["Your balance is: " ++ toString u.balance ++
                        "\nLast transaction: " ++ formatted_last_transaction])
        else
          .ok (st, ["Your balance is: " ++ toString u.balance ++
                      "\nLast transaction: No transactions yet"])
  else if data = "deposit" then
    .ok (⟨st.db, { st.sess with action := some .deposit }⟩,
         ["How much would you like to deposit?"])
  else if data = "withdraw" then
    .ok (⟨st.db, { st.sess with action := some .withdraw }⟩,
         ["How much would you like to withdraw?"])
  else
    .ok (st, [])

/-- `handle_invalid_response`: replies only when a confirmation is pending. -/
def handle_invalid_response (st : BotState) : BotState × List String :=
  if st.sess.confirming then (st, ["Please respond with 'confirm' or 'cancel'."])
  else (st, [])

/-- `handle_amount`: amount entry. While `confirming` it defers to
`handle_invalid_response`; `users.find_one` is called but its result is never
used, so a missing document is harmless here. A parse failure of
`int(text.strip())` is caught (`except ValueError`). -/
def handle_amount (st : BotState) (text : String) : BotState × List String :=
  if st.sess.confirming then handle_invalid_response st
  else
    match st.sess.action with
    | none => (st, ["Please start the transaction again."])
    | some _ =>
      match pyInt (pyStrip text) with
      | none => (st, ["Please enter a valid number."])
      | some amount =>
        if amount ≤ 0 then (st, ["Please enter a value greater than 0."])
        else
          (⟨st.db, { st.sess with amount := some amount, confirming := true }⟩,
           ["You entered: " ++ toString amount ++
              ". Type 'confirm' to proceed or 'cancel' to cancel."])

/-- `handle_confirmation`. `ts` is `str(datetime.now())` at handling time.
On `'confirm'` only the `confirming` flag is reset (lines 127–128);
`action`/`amount` are cleared only on `'cancel'` (lines 132–135). The
`.err` cases mirror `TypeError`s: `user['balance']` when `find_one` returned
`None`, or arithmetic/comparison against a `None` amount; each is raised
before `update_one`, so the store is untouched. -/
def handle_confirmation (st : BotState) (text ts : String) :
    Except String (BotState × List String) :=
  if st.sess.confirming then
    let confirmation_input := pyLower (pyStrip text)
    if confirmation_input = "confirm" then
      match st.sess.action with
      | some .deposit =>
        match st.db, st.sess.amount with
        | some u, some amount =>
          let new_balance := u.balance + amount
          .ok (⟨some ⟨new_balance, some ("Deposited " ++ toString amount ++ " on " ++ ts)⟩,
                { st.sess with confirming := false }⟩,
               ["Deposited " ++ toString amount ++ ". New balance: " ++ toString new_balance])
        | none, _ => .error "TypeError"
        | some _, none => .error "TypeError"
      | some .withdraw =>
        match st.db, st.sess.amount with
        | some u, some amount =>
          if amount > u.balance then
            .ok (⟨st.db, { st.sess with confirming := false }⟩, ["Insufficient balance."])
          else if amount ≤ 0 then
            .ok (⟨st.db, { st.sess with confirming := false }⟩,
                 ["Please enter a value greater than 0."])
          else
            let new_balance := u.balance - amount
            .ok (⟨some ⟨new_balance, some ("Withdrew " ++ toString amount ++ " on " ++ ts)⟩,
                  { st.sess with confirming := false }⟩,
                 ["Withdrew " ++ toString amount ++ ". New balance: " ++ toString new_balance])
        | none, _ => .error "TypeError"
        | some _, none => .error "TypeError"
      | none =>
        .ok (⟨st.db, { st.sess with confirming := false }⟩, [])
    else if confirmation_input = "cancel" then
      .ok (⟨st.db, ⟨none, none, false⟩⟩, ["Transaction cancelled."])
    else
      .ok (st, ["Please respond with 'confirm' or 'cancel'."])
  else
    .ok (st, ["Please start a transaction first."])

/-! ## The dispatcher of `main()` -/

/-- An inbound event for the modelled user: the `/start` command, a callback
query with its `query.data`, or a (non-command) text message. A text event
carries `ts = str(datetime.now())` at the moment it is handled. -/
inductive Event where
  | start
  | button (data : String)
  | text (s : String) (ts : String)

/-- The case-sensitive routing regex `^(confirm|cancel)$` of `main()`.
Python `re`'s `$` also matches just before one trailing newline. -/
def isConfirmRoute (s : String) : Bool :=
  s = "confirm" || s = "cancel" || s = "confirm\n" || s = "cancel\n"

/-- The handler registration in `main()`: text matching `^(confirm|cancel)$`
goes to `handle_confirmation`, any other non-command text to
`handle_amount` (whose filter is `TEXT & ~COMMAND & ~Regex(...)`). -/
def dispatch (st : BotState) (e : Event) : Except String (BotState × List String) :=
  match e with
  | .start => .ok (start st)
  | .button d => button st d
  | .text s ts =>
    if isConfirmRoute s then handle_confirmation st s ts
    else .ok (handle_amount st s)

/-- The states a single user's conversation can reach from no interaction.
Every `.err` of `dispatch` is produced before any mutation in the source
handler, so an event whose handler raises leaves the state unchanged and no
extra constructor is needed. -/
inductive Reachable : BotState → Prop where
  | init : Reachable initState
  | step {st st' : BotState} {e : Event} {out : List String} :
      Reachable st → dispatch st e = .ok (st', out) → Reachable st'

/-! ## Theorems -/

/-- C3: For every user with balance `b` and every positive integer `d`, a
confirmed deposit always succeeds: the persisted balance becomes exactly
`b + d` (still non-negative given the previous balance was), and the
persisted `last_transaction` is `"Deposited {amount} on {timestamp}"`. -/
theorem deposit_confirm_spec (b d : Int) (lt : Option String) (ts : String)
    (hb : 0 ≤ b) (hd : 0 < d) :
    handle_confirmation ⟨some ⟨b, lt⟩, ⟨some .deposit, some d, true⟩⟩ "confirm" ts
      = .ok (⟨some ⟨b + d, some ("Deposited " ++ toString d ++ " on " ++ ts)⟩,
              ⟨some .deposit, some d, false⟩⟩,
             ["Deposited " ++ toString d ++ ". New balance: " ++ toString (b + d)])
    ∧ 0 ≤ b + d :=
  ⟨rfl, by omega⟩

/-- Witness for `deposit_confirm_spec`: balance `0`, deposit `50`. -/
theorem deposit_confirm_spec_witness :
    handle_confirmation ⟨some ⟨0, none⟩, ⟨some .deposit, some 50, true⟩⟩ "confirm"
        "2024-05-06 07:08:09.123456"
      = .ok (⟨some ⟨0 + 50, some ("Deposited " ++ toString (50 : Int) ++ " on " ++
                "2024-05-06 07:08:09.123456")⟩,
              ⟨some .deposit, some 50, false⟩⟩,
             ["Deposited " ++ toString (50 : Int) ++ ". New balance: " ++
                toString ((0 : Int) + 50)])
    ∧ (0 : Int) ≤ 0 + 50 :=
  deposit_confirm_spec 0 50 none "2024-05-06 07:08:09.123456" (by norm_num) (by norm_num)

/-- C2: Withdraw at confirmation, for positive `w`: if `w ≤ b` the
balance becomes exactly `b - w` and `last_transaction` becomes
`"Withdrew {amount} on {timestamp}"`; if `w > b` the outcome is the
insufficient-funds reply "Insufficient balance." and neither the balance nor
`last_transaction` is mutated. -/
theorem withdraw_confirm_spec (b w : Int) (lt : Option String) (ts : String)
    (hw : 0 < w) :
    (w ≤ b →
      handle_confirmation ⟨some ⟨b, lt⟩, ⟨some .withdraw, some w, true⟩⟩ "confirm" ts
        = .ok (⟨some ⟨b - w, some ("Withdrew " ++ toString w ++ " on " ++ ts)⟩,
                ⟨some .withdraw, some w, false⟩⟩,
               ["Withdrew " ++ toString w ++ ". New balance: " ++ toString (b - w)]))
    ∧ (w > b →
      handle_confirmation ⟨some ⟨b, lt⟩, ⟨some .withdraw, some w, true⟩⟩ "confirm" ts
        = .ok (⟨some ⟨b, lt⟩, ⟨some .withdraw, some w, false⟩⟩,
               ["Insufficient balance."])) := by
  constructor
  · intro hle
    unfold handle_confirmation
    simp only [show pyLower (pyStrip "confirm") = "confirm" from by decide]
    norm_num
    rw [if_neg (by omega : ¬ w > b), if_neg (by omega : ¬ w ≤ 0)]
  · intro hgt
    unfold handle_confirmation
    simp only [show pyLower (pyStrip "confirm") = "confirm" from by decide]
    norm_num
    intro h
    exact absurd h (by omega)

/-- Witness for `withdraw_confirm_spec`: both branches, at balance `50` with
`w = 30` and at balance `50` with `w = 100`. -/
theorem withdraw_confirm_spec_witness :
    (handle_confirmation ⟨some ⟨50, none⟩, ⟨some .withdraw, some 30, true⟩⟩ "confirm"
        "2024-05-06 07:08:09.123456"
      = .ok (⟨some ⟨50 - 30, some ("Withdrew " ++ toString (30 : Int) ++ " on " ++
                "2024-05-06 07:08:09.123456")⟩,
              ⟨some .withdraw, some 30, false⟩⟩,
             ["Withdrew " ++ toString (30 : Int) ++ ". New balance: " ++
                toString ((50 : Int) - 30)]))
    ∧ (handle_confirmation ⟨some ⟨50, none⟩, ⟨some .withdraw, some 100, true⟩⟩ "confirm"
        "2024-05-06 07:08:09.123456"
      = .ok (⟨some ⟨50, none⟩, ⟨some .withdraw, some 100, false⟩⟩,
             ["Insufficient balance."])) :=
  ⟨(withdraw_confirm_spec 50 30 none "2024-05-06 07:08:09.123456" (by norm_num)).1
      (by norm_num),
   (withdraw_confirm_spec 50 100 none "2024-05-06 07:08:09.123456" (by norm_num)).2
      (by norm_num)⟩

/-- C4 (code bug in `button`). `/start` creates the record with balance
`0` and `last_transaction = None` under a *present* key, so the inquiry's
`user.get('last_transaction', 'No transactions yet')` returns `None`, not
the sentinel; the `!= 'No transactions yet'` test then succeeds and
`None.split(' on ')` raises `AttributeError`: the inquiry fails instead of
answering "Your balance is: 0 / Last transaction: No transactions yet". -/
theorem check_balance_fresh_user_raises (sess sess0 : Session) :
    (start ⟨none, sess0⟩).1.db = some ⟨0, none⟩
    ∧ button ⟨some ⟨0, none⟩, sess⟩ "check_balance" = .error "AttributeError" :=
  ⟨rfl, rfl⟩

/-- C5 is false as stated: a confirmed deposit resets only the
`confirming` flag; the pending action and amount survive in the session
(`action = deposit`, `amount = 50` below) instead of being cleared. -/
theorem confirm_retains_pending_cex :
    handle_confirmation ⟨some ⟨0, none⟩, ⟨some .deposit, some 50, true⟩⟩ "confirm"
        "2024-01-02 03:04:05.678901"
      = .ok (⟨some ⟨50, some "Deposited 50 on 2024-01-02 03:04:05.678901"⟩,
              ⟨some .deposit, some 50, false⟩⟩,
             ["Deposited 50. New balance: 50"])
    ∧ (⟨some .deposit, some 50, false⟩ : Session).action ≠ none
    ∧ (⟨some .deposit, some 50, false⟩ : Session).amount ≠ none :=
  ⟨rfl, by simp, by simp⟩

/-- C5 (amended). On `'confirm'` with a pending action and amount, the
handler completes (for an existing record), the `confirming` flag is cleared
regardless of the ledger outcome, but the pending action and amount are
*retained* — only `'cancel'` clears them. -/
theorem confirm_clears_only_flag (u : UserRec) (a : Action) (amt : Int) (ts : String) :
    (handle_confirmation ⟨some u, ⟨some a, some amt, true⟩⟩ "confirm" ts).map
        (fun p => p.1.sess)
      = .ok ⟨some a, some amt, false⟩ := by
  cases a
  · rfl
  · unfold handle_confirmation
    simp only [show pyLower (pyStrip "confirm") = "confirm" from by decide]
    norm_num
    split_ifs <;> rfl

/-- C8: With a confirmation pending, the literal `'cancel'` is routed to
`handle_confirmation`, which replies "Transaction cancelled.", leaves the
persisted record untouched (no ledger invocation), and clears the pending
action, amount and flag — whatever the pending amount was. -/
theorem cancel_frame (st : BotState) (ts : String) (hc : st.sess.confirming = true) :
    dispatch st (.text "cancel" ts)
      = .ok (⟨st.db, ⟨none, none, false⟩⟩, ["Transaction cancelled."]) := by
  unfold dispatch
  simp only [show isConfirmRoute "cancel" = true from by decide, if_true]
  unfold handle_confirmation
  rw [hc]
  simp only [show pyLower (pyStrip "cancel") = "cancel" from by decide]
  norm_num
  intro h
  exact absurd h (by decide)

/-- Witness for `cancel_frame`: balance `7`, pending withdraw of `100`. -/
theorem cancel_frame_witness :
    dispatch ⟨some ⟨7, none⟩, ⟨some .withdraw, some 100, true⟩⟩
        (.text "cancel" "2024-05-06 07:08:09.123456")
      = .ok (⟨some ⟨7, none⟩, ⟨none, none, false⟩⟩, ["Transaction cancelled."]) :=
  cancel_frame ⟨some ⟨7, none⟩, ⟨some .withdraw, some 100, true⟩⟩
    "2024-05-06 07:08:09.123456" rfl

/-- C6 is false as stated: with a confirmation pending, the case variant
`'Confirm'` does not match the case-sensitive routing regex
`^(confirm|cancel)$`, lands in `handle_amount`'s confirming guard, and only
re-prompts — no ledger invocation, state unchanged. -/
theorem capitalized_confirm_cex :
    isConfirmRoute "Confirm" = false
    ∧ dispatch ⟨some ⟨0, none⟩, ⟨some .deposit, some 50, true⟩⟩
        (.text "Confirm" "2024-07-08 09:10:11.121314")
      = .ok (⟨some ⟨0, none⟩, ⟨some .deposit, some 50, true⟩⟩,
             ["Please respond with 'confirm' or 'cancel'."]) :=
  ⟨rfl, rfl⟩

/-- C6 (amended). Only the exact lowercase `confirm`/`cancel` (with at
most a trailing newline, which `re`'s `$` accepts) are routed to the
confirmation handler. While awaiting confirmation, any text the regex does
not match — e.g. `'Confirm'`, `'CONFIRM'`, `' confirm '` — is handled as an
unrecognized response: a re-prompt, no ledger invocation, no state change.
(The handler's own `.strip().lower()` never sees such variants.) -/
theorem nonexact_confirm_reprompts (st : BotState) (s ts : String)
    (hc : st.sess.confirming = true) (hr : isConfirmRoute s = false) :
    dispatch st (.text s ts)
      = .ok (st, ["Please respond with 'confirm' or 'cancel'."]) := by
  unfold dispatch
  dsimp only
  rw [hr]
  simp only [Bool.false_eq_true, if_false]
  unfold handle_amount handle_invalid_response
  rw [hc]
  simp

/-- Witness for `nonexact_confirm_reprompts`: the variants `'Confirm'` and
`' confirm '` while a deposit of `50` awaits confirmation. -/
theorem nonexact_confirm_reprompts_witness :
    dispatch ⟨some ⟨0, none⟩, ⟨some .deposit, some 50, true⟩⟩
        (.text "Confirm" "2024-07-08 09:10:11.121314")
      = .ok (⟨some ⟨0, none⟩, ⟨some .deposit, some 50, true⟩⟩,
             ["Please respond with 'confirm' or 'cancel'."])
    ∧ dispatch ⟨some ⟨0, none⟩, ⟨some .deposit, some 50, true⟩⟩
        (.text " confirm " "2024-07-08 09:10:11.121314")
      = .ok (⟨some ⟨0, none⟩, ⟨some .deposit, some 50, true⟩⟩,
             ["Please respond with 'confirm' or 'cancel'."]) :=
  ⟨nonexact_confirm_reprompts ⟨some ⟨0, none⟩, ⟨some .deposit, some 50, true⟩⟩
      "Confirm" "2024-07-08 09:10:11.121314" rfl rfl,
   nonexact_confirm_reprompts ⟨some ⟨0, none⟩, ⟨some .deposit, some 50, true⟩⟩
      " confirm " "2024-07-08 09:10:11.121314" rfl rfl⟩

/-- C7 is false as stated: for a user with no persisted record, the
record lookup in `button` does not create one — the balance inquiry raises
`AttributeError` (`None.get`) instead of proceeding with a fresh record. -/
theorem missing_record_not_created_cex :
    button initState "check_balance" = .error "AttributeError" := rfl

/-- C7 (amended). Only the `/start` handler creates the missing record
(with balance `0` and `last_transaction = None`). The `find_one` lookups in
the other handlers never create: with no record, `handle_amount` leaves the
store empty (it never uses the lookup result), a button selection leaves the
store empty, and a confirmed deposit raises `TypeError` at
`user['balance']`. -/
theorem only_start_creates_record (sess : Session) (text ts : String) (amt : Int) :
    (start ⟨none, sess⟩).1.db = some ⟨0, none⟩
    ∧ (handle_amount ⟨none, sess⟩ text).1.db = none
    ∧ button ⟨none, sess⟩ "deposit"
        = .ok (⟨none, { sess with action := some .deposit }⟩,
               ["How much would you like to deposit?"])
    ∧ handle_confirmation ⟨none, ⟨some .deposit, some amt, true⟩⟩ "confirm" ts
        = .error "TypeError" := by
  refine ⟨rfl, ?_, rfl, rfl⟩
  unfold handle_amount handle_invalid_response
  (repeat' split) <;> rfl

/-! ## The inductive invariant of the session machine and ledger -/

/-- Invariant maintained by every handler: a persisted balance is
non-negative, a stored pending amount is always positive, and a pending
confirmation implies a chosen action and a stored amount. -/
def Inv (st : BotState) : Prop :=
  (∀ u, st.db = some u → 0 ≤ u.balance)
  ∧ (∀ a, st.sess.amount = some a → 0 < a)
  ∧ (st.sess.confirming = true → st.sess.action ≠ none ∧ st.sess.amount ≠ none)

lemma inv_initState : Inv initState := by
  simp [Inv, initState]

lemma inv_start (st : BotState) (hI : Inv st) : Inv (start st).1 := by
  obtain ⟨h1, h2, h3⟩ := hI
  unfold start
  cases hdb : st.db with
  | none =>
    refine ⟨?_, h2, h3⟩
    intro u hu
    simp only [Option.some.injEq] at hu
    subst hu
    norm_num
  | some u =>
    exact ⟨fun u' hu' => h1 u' (hdb ▸ hu'), h2, h3⟩

lemma inv_button (st st' : BotState) (d : String) (out : List String)
    (hI : Inv st) (h : button st d = .ok (st', out)) : Inv st' := by
  obtain ⟨h1, h2, h3⟩ := hI
  unfold button at h
  split at h
  · -- check_balance: the store and session are never written
    split at h
    · exact Except.noConfusion h
    · split at h
      · exact Except.noConfusion h
      · split at h
        · dsimp only at h
          split at h
          · exact Except.noConfusion h
          · simp only [Except.ok.injEq, Prod.mk.injEq] at h
            obtain ⟨rfl, rfl⟩ := h
            exact ⟨h1, h2, h3⟩
        · simp only [Except.ok.injEq, Prod.mk.injEq] at h
          obtain ⟨rfl, rfl⟩ := h
          exact ⟨h1, h2, h3⟩
  · split at h
    · -- deposit: only the session action is set
      simp only [Except.ok.injEq, Prod.mk.injEq] at h
      obtain ⟨rfl, rfl⟩ := h
      exact ⟨h1, h2, fun hc => ⟨by simp, (h3 hc).2⟩⟩
    · split at h
      · -- withdraw: only the session action is set
        simp only [Except.ok.injEq, Prod.mk.injEq] at h
        obtain ⟨rfl, rfl⟩ := h
        exact ⟨h1, h2, fun hc => ⟨by simp, (h3 hc).2⟩⟩
      · -- unknown callback data: nothing happens
        simp only [Except.ok.injEq, Prod.mk.injEq] at h
        obtain ⟨rfl, rfl⟩ := h
        exact ⟨h1, h2, h3⟩

lemma inv_handle_amount (st : BotState) (text : String) (hI : Inv st) :
    Inv (handle_amount st text).1 := by
  obtain ⟨h1, h2, h3⟩ := hI
  unfold handle_amount handle_invalid_response
  split
  · exact ⟨h1, h2, h3⟩
  · split
    · exact ⟨h1, h2, h3⟩
    · split
      · exact ⟨h1, h2, h3⟩
      · split
        · exact ⟨h1, h2, h3⟩
        · -- a validated positive amount is stored and `confirming` is set
          rename_i hpos
          refine ⟨h1, ?_, ?_⟩
          · intro a ha
            simp only [Option.some.injEq] at ha
            omega
          · intro _
            rename_i hact _ _
            exact ⟨by simp_all, by simp⟩

lemma inv_handle_confirmation (st st' : BotState) (text ts : String)
    (out : List String) (hI : Inv st)
    (h : handle_confirmation st text ts = .ok (st', out)) : Inv st' := by
  obtain ⟨h1, h2, h3⟩ := hI
  unfold handle_confirmation at h
  split at h
  · -- a confirmation is pending
    split at h
    · -- action = deposit
      split at h
      · -- record and amount both present
        rename_i u amount hdb hamt
        dsimp only at h
        split at h
        · -- 'confirm': deposit applied, balance grows by the stored amount
          simp only [Except.ok.injEq, Prod.mk.injEq] at h
          obtain ⟨rfl, rfl⟩ := h
          refine ⟨?_, h2, by simp⟩
          intro u' hu'
          simp only [Option.some.injEq] at hu'
          subst hu'
          have hb := h1 u hdb
          have ha := h2 amount hamt
          simp only
          omega
        · split at h
          · -- 'cancel': session fully cleared
            simp only [Except.ok.injEq, Prod.mk.injEq] at h
            obtain ⟨rfl, rfl⟩ := h
            exact ⟨h1, by simp, by simp⟩
          · -- unrecognized: state unchanged
            simp only [Except.ok.injEq, Prod.mk.injEq] at h
            obtain ⟨rfl, rfl⟩ := h
            exact ⟨h1, h2, h3⟩
      · -- record missing: 'confirm' raises before mutating
        dsimp only at h
        split at h
        · exact Except.noConfusion h
        · split at h
          · simp only [Except.ok.injEq, Prod.mk.injEq] at h
            obtain ⟨rfl, rfl⟩ := h
            exact ⟨h1, by simp, by simp⟩
          · simp only [Except.ok.injEq, Prod.mk.injEq] at h
            obtain ⟨rfl, rfl⟩ := h
            exact ⟨h1, h2, h3⟩
      · -- amount missing: 'confirm' raises before mutating
        dsimp only at h
        split at h
        · exact Except.noConfusion h
        · split at h
          · simp only [Except.ok.injEq, Prod.mk.injEq] at h
            obtain ⟨rfl, rfl⟩ := h
            exact ⟨h1, by simp, by simp⟩
          · simp only [Except.ok.injEq, Prod.mk.injEq] at h
            obtain ⟨rfl, rfl⟩ := h
            exact ⟨h1, h2, h3⟩
    · -- action = withdraw
      split at h
      · rename_i u amount hdb hamt
        dsimp only at h
        split at h
        · -- 'confirm'
          split at h
          · -- insufficient funds: store untouched
            simp only [Except.ok.injEq, Prod.mk.injEq] at h
            obtain ⟨rfl, rfl⟩ := h
            exact ⟨h1, h2, by simp⟩
          · split at h
            · -- non-positive amount guard: store untouched
              simp only [Except.ok.injEq, Prod.mk.injEq] at h
              obtain ⟨rfl, rfl⟩ := h
              exact ⟨h1, h2, by simp⟩
            · -- withdrawal applied: `amount ≤ balance` keeps it non-negative
              rename_i hgt hle
              simp only [Except.ok.injEq, Prod.mk.injEq] at h
              obtain ⟨rfl, rfl⟩ := h
              refine ⟨?_, h2, by simp⟩
              intro u' hu'
              simp only [Option.some.injEq] at hu'
              subst hu'
              simp only
              omega
        · split at h
          · simp only [Except.ok.injEq, Prod.mk.injEq] at h
            obtain ⟨rfl, rfl⟩ := h
            exact ⟨h1, by simp, by simp⟩
          · simp only [Except.ok.injEq, Prod.mk.injEq] at h
            obtain ⟨rfl, rfl⟩ := h
            exact ⟨h1, h2, h3⟩
      · dsimp only at h
        split at h
        · exact Except.noConfusion h
        · split at h
          · simp only [Except.ok.injEq, Prod.mk.injEq] at h
            obtain ⟨rfl, rfl⟩ := h
            exact ⟨h1, by simp, by simp⟩
          · simp only [Except.ok.injEq, Prod.mk.injEq] at h
            obtain ⟨rfl, rfl⟩ := h
            exact ⟨h1, h2, h3⟩
      · dsimp only at h
        split at h
        · exact Except.noConfusion h
        · split at h
          · simp only [Except.ok.injEq, Prod.mk.injEq] at h
            obtain ⟨rfl, rfl⟩ := h
            exact ⟨h1, by simp, by simp⟩
          · simp only [Except.ok.injEq, Prod.mk.injEq] at h
            obtain ⟨rfl, rfl⟩ := h
            exact ⟨h1, h2, h3⟩
    · -- no action recorded: only the flag can be reset
      dsimp only at h
      split at h
      · simp only [Except.ok.injEq, Prod.mk.injEq] at h
        obtain ⟨rfl, rfl⟩ := h
        exact ⟨h1, h2, by simp⟩
      · split at h
        · simp only [Except.ok.injEq, Prod.mk.injEq] at h
          obtain ⟨rfl, rfl⟩ := h
          exact ⟨h1, by simp, by simp⟩
        · simp only [Except.ok.injEq, Prod.mk.injEq] at h
          obtain ⟨rfl, rfl⟩ := h
          exact ⟨h1, h2, h3⟩
  · -- no confirmation pending: state unchanged
    simp only [Except.ok.injEq, Prod.mk.injEq] at h
    obtain ⟨rfl, rfl⟩ := h
    exact ⟨h1, h2, h3⟩

lemma inv_dispatch (st st' : BotState) (e : Event) (out : List String)
    (hI : Inv st) (h : dispatch st e = .ok (st', out)) : Inv st' := by
  cases e with
  | start =>
    simp only [dispatch] at h
    have hst : (start st).1 = st' := congrArg Prod.fst (Except.ok.inj h)
    rw [← hst]
    exact inv_start st hI
  | button d =>
    simp only [dispatch] at h
    exact inv_button st st' d out hI h
  | text s ts =>
    simp only [dispatch] at h
    split at h
    · exact inv_handle_confirmation st st' s ts out hI h
    · have hst : (handle_amount st s).1 = st' := congrArg Prod.fst (Except.ok.inj h)
      rw [← hst]
      exact inv_handle_amount st s hI

lemma inv_reachable (st : BotState) (h : Reachable st) : Inv st := by
  induction h with
  | init => exact inv_initState
  | step hr hd ih => exact inv_dispatch _ _ _ _ ih hd

/-- C1: In every reachable state, every persisted balance is
non-negative: the record is created with balance `0`, a confirmed deposit
adds the stored (positive) amount, and a withdraw that would overdraw is
answered "Insufficient balance." before any mutation. -/
theorem balance_nonneg_of_reachable (st : BotState) (h : Reachable st)
    (u : UserRec) (hu : st.db = some u) : 0 ≤ u.balance :=
  (inv_reachable st h).1 u hu

/-- Witness for `balance_nonneg_of_reachable`: the state right after
`/start`. -/
theorem balance_nonneg_of_reachable_witness : 0 ≤ (UserRec.mk 0 none).balance :=
  balance_nonneg_of_reachable ⟨some ⟨0, none⟩, ⟨none, none, false⟩⟩
    (@Reachable.step initState ⟨some ⟨0, none⟩, ⟨none, none, false⟩⟩ Event.start
      ["Welcome to the Mock Bank Bot! Choose an option:"] Reachable.init rfl)
    ⟨0, none⟩ rfl

/-- C9: In every reachable state, a pending confirmation
(`confirming = true`) implies the pending action is set and the pending
amount is a stored positive integer: `AWAITING_CONFIRMATION` is never
reached with a non-positive or non-numeric amount. -/
theorem awaiting_confirmation_inv (st : BotState) (h : Reachable st)
    (hc : st.sess.confirming = true) :
    st.sess.action ≠ none ∧ ∃ a, st.sess.amount = some a ∧ 0 < a := by
  obtain ⟨h1, h2, h3⟩ := inv_reachable st h
  obtain ⟨ha, hm⟩ := h3 hc
  refine ⟨ha, ?_⟩
  cases hma : st.sess.amount with
  | none => exact absurd hma hm
  | some a => exact ⟨a, rfl, h2 a hma⟩

/-- Witness for `awaiting_confirmation_inv`: the state reached by
`/start`, the Deposit button, then the message `50`. -/
theorem awaiting_confirmation_inv_witness :
    (⟨some ⟨0, none⟩, ⟨some .deposit, some 50, true⟩⟩ : BotState).sess.action ≠ none
    ∧ ∃ a, (⟨some ⟨0, none⟩, ⟨some .deposit, some 50, true⟩⟩ : BotState).sess.amount
        = some a ∧ 0 < a :=
  awaiting_confirmation_inv ⟨some ⟨0, none⟩, ⟨some .deposit, some 50, true⟩⟩
    (@Reachable.step ⟨some ⟨0, none⟩, ⟨some .deposit, none, false⟩⟩
      ⟨some ⟨0, none⟩, ⟨some .deposit, some 50, true⟩⟩
      (Event.text "50" "2024-05-06 07:08:09.123456")
      ["You entered: 50. Type 'confirm' to proceed or 'cancel' to cancel."]
      (@Reachable.step ⟨some ⟨0, none⟩, ⟨none, none, false⟩⟩
        ⟨some ⟨0, none⟩, ⟨some .deposit, none, false⟩⟩
        (Event.button "deposit")
        ["How much would you like to deposit?"]
        (@Reachable.step initState ⟨some ⟨0, none⟩, ⟨none, none, false⟩⟩ Event.start
          ["Welcome to the Mock Bank Bot! Choose an option:"] Reachable.init rfl)
        rfl)
      rfl)
    rfl

/-! ## The inquiry's mandatory fractional-seconds parse (C10) -/

lemma parseYear_sublist {cs rest : List Char} {y : Nat}
    (h : parseYear cs = some (y, rest)) : List.Sublist rest cs := by
  unfold parseYear at h
  split at h
  · split at h
    · simp only [Option.some.injEq, Prod.mk.injEq] at h
      obtain ⟨-, rfl⟩ := h
      exact .cons _ (.cons _ (.cons _ (.cons _ (.refl _))))
    · exact Option.noConfusion h
  · exact Option.noConfusion h

lemma expect_sublist {c : Char} {cs rest : List Char}
    (h : expect c cs = some rest) : List.Sublist rest cs := by
  unfold expect at h
  split at h
  · split at h
    · simp only [Option.some.injEq] at h
      subst h
      exact .cons _ (.refl _)
    · exact Option.noConfusion h
  · exact Option.noConfusion h

lemma expect_mem {c : Char} {cs rest : List Char}
    (h : expect c cs = some rest) : c ∈ cs := by
  unfold expect at h
  split at h
  · split at h
    · rename_i x r hx
      subst hx
      exact List.mem_cons_self _ _
    · exact Option.noConfusion h
  · exact Option.noConfusion h

lemma parseField_sublist {lo hi v : Nat} {cs rest : List Char}
    (h : parseField lo hi cs = some (v, rest)) : List.Sublist rest cs := by
  unfold parseField at h
  dsimp only at h
  split at h
  · simp only [Option.some.injEq, Prod.mk.injEq] at h
    obtain ⟨-, rfl⟩ := h
    rw [List.span_eq_take_drop]
    exact List.dropWhile_sublist _
  · exact Option.noConfusion h

lemma expectWs_sublist {cs rest : List Char}
    (h : expectWs cs = some rest) : List.Sublist rest cs := by
  unfold expectWs at h
  dsimp only at h
  split at h
  · simp only [Option.some.injEq] at h
    subst h
    rw [List.span_eq_take_drop]
    exact List.dropWhile_sublist _
  · exact Option.noConfusion h

/-- A successful `strptime` with format `'%Y-%m-%d %H:%M:%S.%f'` requires a
literal `'.'` somewhere in the input. -/
lemma parseDatetime_mem_dot {s : String} {dt : PyDatetime}
    (h : parseDatetime s = some dt) : '.' ∈ s.toList := by
  unfold parseDatetime at h
  split at h
  · exact Option.noConfusion h
  rename_i y r1 hy
  split at h
  · exact Option.noConfusion h
  rename_i r2 he1
  split at h
  · exact Option.noConfusion h
  rename_i mo r3 hf1
  split at h
  · exact Option.noConfusion h
  rename_i r4 he2
  split at h
  · exact Option.noConfusion h
  rename_i d r5 hf2
  split at h
  · exact Option.noConfusion h
  rename_i r6 hw
  split at h
  · exact Option.noConfusion h
  rename_i hh r7 hf3
  split at h
  · exact Option.noConfusion h
  rename_i r8 he3
  split at h
  · exact Option.noConfusion h
  rename_i mi r9 hf4
  split at h
  · exact Option.noConfusion h
  rename_i r10 he4
  split at h
  · exact Option.noConfusion h
  rename_i sec r11 hf5
  split at h
  · exact Option.noConfusion h
  rename_i r12 hdot
  have hsub : List.Sublist r11 s.toList :=
    ((((((((((parseField_sublist hf5).trans (expect_sublist he4)).trans
      (parseField_sublist hf4)).trans (expect_sublist he3)).trans
      (parseField_sublist hf3)).trans (expectWs_sublist hw)).trans
      (parseField_sublist hf2)).trans (expect_sublist he2)).trans
      (parseField_sublist hf1)).trans (expect_sublist he1)).trans
      (parseYear_sublist hy)
  exact hsub.subset (expect_mem hdot)

/-- C10: The inquiry splits the stored `last_transaction` on `' on '`
and parses the final segment with `'%Y-%m-%d %H:%M:%S.%f'`, whose
fractional-seconds field is mandatory: whenever that segment contains no
`'.'` — exactly what `f"{datetime.now()}"` writes when the timestamp has
zero microseconds — the inquiry raises `ValueError` instead of returning a
display string. -/
theorem inquiry_fails_without_fraction (b : Int) (sess : Session) (lt : String)
    (hne : lt ≠ "No transactions yet")
    (hdot : '.' ∉ ((pySplitOn lt " on ").getLastD "").toList) :
    button ⟨some ⟨b, some lt⟩, sess⟩ "check_balance" = .error "ValueError" := by
  have hp : parseDatetime ((pySplitOn lt " on ").getLastD "") = none := by
    cases hq : parseDatetime ((pySplitOn lt " on ").getLastD "") with
    | none => rfl
    | some dt => exact absurd (parseDatetime_mem_dot hq) hdot
  unfold button
  rw [if_pos rfl]
  dsimp only
  rw [if_pos hne, hp]

/-- Witness for `inquiry_fails_without_fraction`: the stored string
`"Deposited 50 on 2024-01-01 12:00:00"`, whose timestamp is exactly
`str(datetime(...))` of a zero-microsecond instant. -/
theorem inquiry_fails_without_fraction_witness :
    pyDatetimeStr ⟨2024, 1, 1, 12, 0, 0, 0⟩ = "2024-01-01 12:00:00"
    ∧ ("Deposited 50 on 2024-01-01 12:00:00" ≠ "No transactions yet")
    ∧ ('.' ∉ ((pySplitOn "Deposited 50 on 2024-01-01 12:00:00" " on ").getLastD
        "").toList)
    ∧ button ⟨some ⟨50, some "Deposited 50 on 2024-01-01 12:00:00"⟩,
          ⟨none, none, false⟩⟩ "check_balance" = .error "ValueError" :=
  ⟨by decide, by decide, by decide,
   inquiry_fails_without_fraction 50 ⟨none, none, false⟩
     "Deposited 50 on 2024-01-01 12:00:00" (by decide) (by decide)⟩

end MockBank
